import Mathlib

/-!
Verification development for the LocaMate server.

The definitions below are shallow embeddings of the JavaScript source:
the Mongoose itinerary model (models/Itinerary.js), the place model
(models/Place.js), the Foursquare gateway (services/foursquareService.js),
the OpenAI response parser (services/openaiService.js) and the itinerary
controller (controllers/itineraryController.js).  JavaScript numbers used
as counts and durations are modelled as Nat, ratings and popularity
scores as Rat, ids and user references as String, and Date values as an
abstract Nat timestamp passed in by the caller (the embedding of
Date.now / new Date()).  Fallible external calls (axios, OpenAI) are
modelled as explicit outcome arguments of type Except / Option.
-/

namespace LocaMate

/-- Entry of the places sub-array of an itinerary (itinerarySchema.places).
The rating field is optional in the schema; isVisited defaults to false. -/
structure PlaceEntry where
  placeId : String
  name : String
  category : String
  order : Nat
  estimatedDuration : Nat
  notes : String
  isVisited : Bool
  rating : Option Nat
deriving DecidableEq

/-- Entry of the likes sub-array: a user reference plus the likedAt date
(modelled as a Nat timestamp, default Date.now at push time). -/
structure Like where
  user : String
  likedAt : Nat
deriving DecidableEq

/-- The itinerary document, restricted to the fields the verified methods
read or write. -/
structure Itinerary where
  title : String
  description : String
  places : List PlaceEntry
  totalDuration : Nat
  estimatedCost : Nat
  isPublic : Bool
  isCompleted : Bool
  completedAt : Option Nat
  likes : List Like
  shares : Nat
deriving DecidableEq

/-- Sum of the estimatedDuration values of a list of place entries
(the quantity the spec calls the sum of entry estimated durations). -/
def sumDurations (l : List PlaceEntry) : Nat :=
  (l.map (·.estimatedDuration)).sum

/-- itinerarySchema.methods.updateTotals: this.totalDuration =
this.places.reduce((total, place) => total + place.estimatedDuration, 0). -/
def updateTotals (it : Itinerary) : Itinerary :=
  { it with totalDuration :=
      it.places.foldl (fun total place => total + place.estimatedDuration) 0 }

/-- Payload of addPlace (the placeData object spread into the new entry;
order is overridden by the method, isVisited and rating take the schema
defaults). -/
structure PlaceData where
  placeId : String
  name : String
  category : String
  estimatedDuration : Nat
  notes : String
deriving DecidableEq

/-- Math.max(...this.places.map(p => p.order)) guarded by the length test
in addPlace: 0 for the empty list, the maximum order otherwise. -/
def maxOrder (places : List PlaceEntry) : Nat :=
  if places.length > 0 then (places.map (·.order)).foldl Nat.max 0 else 0

/-- itinerarySchema.methods.addPlace: push {...placeData, order: maxOrder+1}
then updateTotals (the save() round trip is identity on the document). -/
def addPlace (it : Itinerary) (placeData : PlaceData) : Itinerary :=
  updateTotals { it with places := it.places ++
    [{ placeId := placeData.placeId
       name := placeData.name
       category := placeData.category
       order := maxOrder it.places + 1
       estimatedDuration := placeData.estimatedDuration
       notes := placeData.notes
       isVisited := false
       rating := none }] }

/-- this.places.forEach((place, index) => { place.order = index + 1 }):
renumber a list of entries starting from index k. -/
def renumberFrom (k : Nat) : List PlaceEntry → List PlaceEntry
  | [] => []
  | p :: ps => { p with order := k + 1 } :: renumberFrom (k + 1) ps

/-- itinerarySchema.methods.removePlace: filter out every entry whose
placeId equals the argument, renumber the remainder 1..N, updateTotals. -/
def removePlace (it : Itinerary) (placeId : String) : Itinerary :=
  updateTotals { it with
    places := renumberFrom 0 (it.places.filter (fun p => p.placeId ≠ placeId)) }

/-- JavaScript truthiness of the optional rating argument
(if (rating) place.rating = rating): null and 0 are falsy. -/
def ratingTruthy : Option Nat → Bool
  | none => false
  | some n => n ≠ 0

/-- this.places.find(p => p.placeId === placeId) followed by in-place
mutation: mark the FIRST entry with the given placeId visited and
optionally set its rating; later duplicates are untouched. -/
def markFirst : List PlaceEntry → String → Option Nat → List PlaceEntry
  | [], _, _ => []
  | p :: ps, placeId, rating =>
    if p.placeId = placeId then
      { p with isVisited := true
               rating := if ratingTruthy rating then rating else p.rating } :: ps
    else
      p :: markFirst ps placeId rating

/-- itinerarySchema.methods.markPlaceVisited: mark the first matching
entry, then if this.places.every(p => p.isVisited) set isCompleted and
completedAt (now is the embedding of new Date()). -/
def markPlaceVisited (it : Itinerary) (placeId : String) (rating : Option Nat)
    (now : Nat) : Itinerary :=
  let places' := markFirst it.places placeId rating
  if places'.all (·.isVisited) then
    { it with places := places', isCompleted := true, completedAt := some now }
  else
    { it with places := places' }

/-- itinerarySchema.methods.toggleLike: remove every like of the user if
one exists, otherwise push {user, likedAt: now} at the end. -/
def toggleLike (it : Itinerary) (userId : String) (now : Nat) : Itinerary :=
  if it.likes.any (fun l => l.user = userId) then
    { it with likes := it.likes.filter (fun l => l.user ≠ userId) }
  else
    { it with likes := it.likes ++ [{ user := userId, likedAt := now }] }

/-- The value MongoDB resolves for the sort path likes.length on an
itinerary document: the path selects a field named length inside the
elements of the likes array of {user, likedAt} subdocuments.  No such
field exists, so the key is missing (null) on every document. -/
def likesLengthKey (_it : Itinerary) : Option Nat :=
  none

/-- BSON less-than on one sort key, with a missing key treated as null,
which sorts below every number. -/
def keyLT (u v : Option Nat) : Prop :=
  match u, v with
  | some x, some y => x < y
  | none, some _ => True
  | _, none => False

instance (u v : Option Nat) : Decidable (keyLT u v) :=
  match u, v with
  | some x, some y => inferInstanceAs (Decidable (x < y))
  | none, some _ => inferInstanceAs (Decidable True)
  | none, none => inferInstanceAs (Decidable False)
  | some _, none => inferInstanceAs (Decidable False)

/-- The order produced by the Mongo sort specification
sort({likes.length: -1, shares: -1}): first the likes.length key
descending, then shares descending on key ties.  Because likesLengthKey
is missing on every document, the primary key never discriminates and
the query effectively orders by shares descending only.
mongoPopRel a b says a may come (weakly) before b. -/
def mongoPopRel (a b : Itinerary) : Prop :=
  keyLT (likesLengthKey b) (likesLengthKey a) ∨
    (likesLengthKey a = likesLengthKey b ∧ b.shares ≤ a.shares)

instance : DecidableRel mongoPopRel := fun a b =>
  inferInstanceAs (Decidable (keyLT (likesLengthKey b) (likesLengthKey a) ∨
    (likesLengthKey a = likesLengthKey b ∧ b.shares ≤ a.shares)))

/-- itinerarySchema.statics.findPopular over an explicit collection of
documents: find({isPublic: true}), sort({likes.length: -1, shares: -1})
with Mongo path resolution (see mongoPopRel), limit(limit).  The
populate calls only decorate references and are identity here. -/
def findPopular (itineraries : List Itinerary) (limit : Nat) : List Itinerary :=
  (((itineraries.filter (·.isPublic)).insertionSort mongoPopRel).take limit)

/-- The stats sub-document of the place model; absent counts are None. -/
structure PlaceStats where
  totalCheckins : Option Nat
  totalTips : Option Nat
  totalPhotos : Option Nat
deriving DecidableEq

/-- The place document (models/Place.js), restricted to the fields
updatePopularity reads or writes. -/
structure Place where
  foursquareId : String
  name : String
  category : String
  rating : Option ℚ
  stats : PlaceStats
  popularity : ℚ
deriving DecidableEq

/-- placeSchema.methods.updatePopularity: popularity =
checkins*0.4 + tips*0.3 + photos*0.2 + rating*0.1, with each absent
input replaced by 0 (the JavaScript x || 0, which getD 0 matches since
0 || 0 is also 0). -/
def updatePopularity (p : Place) : Place :=
  let checkins : ℚ := (p.stats.totalCheckins.getD 0 : Nat)
  let tips : ℚ := (p.stats.totalTips.getD 0 : Nat)
  let photos : ℚ := (p.stats.totalPhotos.getD 0 : Nat)
  let rating : ℚ := p.rating.getD 0
  { p with popularity :=
      checkins * 0.4 + tips * 0.3 + photos * 0.2 + rating * 0.1 }

/-- A raw place object of a Foursquare response, restricted to the
projection the cache key and formatting need. -/
structure RawPlace where
  fsq_id : String
  name : String
  category : String
deriving DecidableEq

/-- FoursquareService.cachePlace: Place.findOneAndUpdate with upsert on
foursquareId — replace the cached document if the id is present,
append it otherwise.  The cache store is an association list keyed by
foursquareId. -/
def cachePlace (cache : List (String × RawPlace)) (p : RawPlace) :
    List (String × RawPlace) :=
  if cache.any (fun kv => kv.1 = p.fsq_id) then
    cache.map (fun kv => if kv.1 = p.fsq_id then (p.fsq_id, p) else kv)
  else
    cache ++ [(p.fsq_id, p)]

/-- FoursquareService.cachePlaces: upsert each returned place in turn. -/
def cachePlaces (cache : List (String × RawPlace)) (places : List RawPlace) :
    List (String × RawPlace) :=
  places.foldl cachePlace cache

/-- Formatted search result (FoursquareService.formatPlace projection). -/
structure FormattedPlace where
  id : String
  name : String
  category : String
deriving DecidableEq

def formatPlace (p : RawPlace) : FormattedPlace :=
  { id := p.fsq_id, name := p.name, category := p.category }

/-- FoursquareService.searchPlaces.  The axios call is modelled by its
outcome: error for a failed or timed-out request, ok for a response
whose results field may be missing (response.data.results || []).  On
error the catch block rethrows and the cache is untouched; on success
the places are cached and formatted. -/
def searchPlaces (providerOutcome : Except Unit (Option (List RawPlace)))
    (cache : List (String × RawPlace)) :
    Except String (List FormattedPlace) × List (String × RawPlace) :=
  match providerOutcome with
  | .error _ => (.error "Failed to search places", cache)
  | .ok results =>
    let places := results.getD []
    (.ok (places.map formatPlace), cachePlaces cache places)

/-- A stub place of the parsed LLM skeleton. -/
structure StubPlace where
  name : String
  category : String
  estimatedDuration : Option Nat
  notes : Option String
deriving DecidableEq

/-- The parsed itinerary skeleton returned by the LLM. -/
structure Skeleton where
  title : String
  description : String
  totalDuration : Nat
  estimatedCost : Nat
  tags : List String
  places : List StubPlace
deriving DecidableEq

/-- Result object of OpenAIService.parseItineraryResponse. -/
structure AIResponse where
  success : Bool
  itinerary : Option Skeleton
  error : Option String
deriving DecidableEq

/-- OpenAIService.parseItineraryResponse: JSON.parse in a try/catch,
modelled by its outcome — some skeleton when the response text parses,
none when JSON.parse throws.  The catch branch returns a failure result
instead of propagating the exception. -/
def parseItineraryResponse (parsed : Option Skeleton) : AIResponse :=
  match parsed with
  | some itinerary => { success := true, itinerary := some itinerary, error := none }
  | none => { success := false, itinerary := none,
              error := some "Failed to generate itinerary" }

/-- Parameters of a Places Gateway search issued by the generation flow. -/
structure SearchRequest where
  query : String
  ll : String
  radius : Nat
  limit : Nat
deriving DecidableEq

/-- A formatted search result as seen by the generation flow. -/
structure SearchResult where
  id : String
  name : String
  category : String
deriving DecidableEq

/-- JavaScript String.prototype.includes on character lists: needle is a
contiguous substring of the haystack (the empty needle always matches). -/
def listIncludes (needle : List Char) : List Char → Bool
  | [] => needle.isEmpty
  | c :: rest => needle.isPrefixOf (c :: rest) || listIncludes needle rest

/-- s.toLowerCase() as a character list: lower each character. -/
def jsToLower (s : String) : List Char :=
  s.data.map Char.toLower

/-- hay.includes(needle) on lowered character lists. -/
def jsIncludes (hay needle : List Char) : Bool :=
  listIncludes needle hay

/-- The bestMatch predicate of the generation flow:
result.name.toLowerCase().includes(place.name.toLowerCase()) ||
result.category.toLowerCase().includes(place.category.toLowerCase()). -/
def matchesStub (stub : StubPlace) (r : SearchResult) : Bool :=
  jsIncludes (jsToLower r.name) (jsToLower stub.name) ||
    jsIncludes (jsToLower r.category) (jsToLower stub.category)

/-- JavaScript s || fallback for strings: the empty string is falsy. -/
def jsOrString (s fallback : String) : String :=
  if s = "" then fallback else s

/-- JavaScript v || fallback for an optional number: null and 0 are falsy. -/
def jsOrNat (v : Option Nat) (fallback : Nat) : Nat :=
  match v with
  | some n => if n = 0 then fallback else n
  | none => fallback

/-- JavaScript v || fallback for an optional string. -/
def jsOrStrOpt (v : Option String) (fallback : String) : String :=
  match v with
  | some s => if s = "" then fallback else s
  | none => fallback

/-- A place entry produced by the generation flow before persistence. -/
structure ResolvedPlace where
  placeId : String
  name : String
  category : String
  order : Nat
  estimatedDuration : Nat
  notes : String
  details : Option SearchResult
deriving DecidableEq

/-- The synthesized entry used when no search result matches a stub or
the search fails: placeholder-index id, the stub's own name, category,
duration (|| 60) and notes (|| empty), null details. -/
def placeholderFor (stub : StubPlace) (index : Nat) : ResolvedPlace :=
  { placeId := "placeholder-" ++ toString index
    name := stub.name
    category := stub.category
    order := index + 1
    estimatedDuration := jsOrNat stub.estimatedDuration 60
    notes := jsOrStrOpt stub.notes ""
    details := none }

/-- Resolution of one skeleton stub (the body of the Promise.all map in
generateItinerary): on search success take the first result satisfying
matchesStub and build the entry from it with || fallbacks
(bestMatch?.id || placeholder id, and so on); with no match the ||
fallbacks produce exactly the placeholder entry, as does the catch
branch when the search fails. -/
def resolveStub (stub : StubPlace) (index : Nat)
    (searchOutcome : Except Unit (List SearchResult)) : ResolvedPlace :=
  match searchOutcome with
  | .error _ => placeholderFor stub index
  | .ok searchResults =>
    match searchResults.find? (matchesStub stub) with
    | some bestMatch =>
      { placeId := jsOrString bestMatch.id ("placeholder-" ++ toString index)
        name := jsOrString bestMatch.name stub.name
        category := jsOrString bestMatch.category stub.category
        order := index + 1
        estimatedDuration := jsOrNat stub.estimatedDuration 60
        notes := jsOrStrOpt stub.notes ""
        details := some bestMatch }
    | none => placeholderFor stub index

/-- The search request issued for one stub: the stub's name as free-text
query near the effective location, radius 5000, limit 5. -/
def mkSearchRequest (stub : StubPlace) (searchLocation : String) : SearchRequest :=
  { query := stub.name, ll := searchLocation, radius := 5000, limit := 5 }

/-- Indexed resolution of all skeleton stubs in original order; the
gateway argument is the outcome of foursquareService.searchPlaces for a
given request. -/
def resolvePlacesFrom (gateway : SearchRequest → Except Unit (List SearchResult))
    (searchLocation : String) : Nat → List StubPlace → List ResolvedPlace
  | _, [] => []
  | index, stub :: rest =>
    resolveStub stub index (gateway (mkSearchRequest stub searchLocation)) ::
      resolvePlacesFrom gateway searchLocation (index + 1) rest

def resolvePlaces (gateway : SearchRequest → Except Unit (List SearchResult))
    (searchLocation : String) (stubs : List StubPlace) : List ResolvedPlace :=
  resolvePlacesFrom gateway searchLocation 0 stubs

/-- The document handed to Itinerary.create by the generation flow,
restricted to the verified fields.  totalDuration and estimatedCost are
copied verbatim from the skeleton; updateTotals is not invoked. -/
structure GenItinerary where
  title : String
  description : String
  places : List ResolvedPlace
  totalDuration : Nat
  estimatedCost : Nat
  tags : List String
  aiGenerated : Bool
  aiPrompt : String
deriving DecidableEq

def buildGenItinerary (skel : Skeleton)
    (gateway : SearchRequest → Except Unit (List SearchResult))
    (searchLocation : String) (prompt : String) : GenItinerary :=
  { title := skel.title
    description := skel.description
    places := resolvePlaces gateway searchLocation skel.places
    totalDuration := skel.totalDuration
    estimatedCost := skel.estimatedCost
    tags := skel.tags
    aiGenerated := true
    aiPrompt := prompt }

/-- HTTP-level outcome of the generation endpoint: status code, success
flag, message, and the created record if any. -/
structure GenResponse where
  status : Nat
  success : Bool
  message : String
  created : Option GenItinerary
deriving DecidableEq

/-- Controller generateItinerary (POST /api/itineraries/generate): 400
when the prompt or the effective location is falsy, 500 when the AI
response is a failure result, otherwise resolve the skeleton stubs and
create the itinerary record. -/
def generateItinerary (prompt : Option String) (searchLocation : Option String)
    (aiResponse : AIResponse)
    (gateway : SearchRequest → Except Unit (List SearchResult)) : GenResponse :=
  match prompt with
  | none => { status := 400, success := false,
              message := "Prompt is required", created := none }
  | some p =>
    if p = "" then
      { status := 400, success := false,
        message := "Prompt is required", created := none }
    else
      match searchLocation with
      | none => { status := 400, success := false,
                  message := "Location is required for itinerary generation",
                  created := none }
      | some loc =>
        if loc = "" then
          { status := 400, success := false,
            message := "Location is required for itinerary generation",
            created := none }
        else if aiResponse.success then
          match aiResponse.itinerary with
          | some skel =>
            { status := 200, success := true,
              message := "Itinerary generated successfully",
              created := some (buildGenItinerary skel gateway loc p) }
          | none =>
            { status := 500, success := false,
              message := "Failed to generate itinerary", created := none }
        else
          { status := 500, success := false,
            message := jsOrStrOpt aiResponse.error "Failed to generate itinerary",
            created := none }

/-- Controller updateItinerary (PUT /api/itineraries/:id): set each
provided field (JavaScript truthiness: an empty title or description is
skipped, any provided places array — even empty — is assigned and
followed by updateTotals, isPublic only when a boolean was sent). -/
def updateItinerary (it : Itinerary) (title : Option String)
    (description : Option String) (places : Option (List PlaceEntry))
    (isPublic : Option Bool) : Itinerary :=
  let it1 := match title with
    | some t => if t = "" then it else { it with title := t }
    | none => it
  let it2 := match description with
    | some d => if d = "" then it1 else { it1 with description := d }
    | none => it1
  let it3 := match places with
    | some ps => updateTotals { it2 with places := ps }
    | none => it2
  match isPublic with
  | some b => { it3 with isPublic := b }
  | none => it3

/-- One structural mutation of the places sub-list. -/
inductive PlaceOp where
  | add (placeData : PlaceData)
  | remove (placeId : String)
deriving DecidableEq

def applyOp (it : Itinerary) : PlaceOp → Itinerary
  | .add placeData => addPlace it placeData
  | .remove placeId => removePlace it placeId

/-- Apply a sequence of add/remove operations in order. -/
def applyOps (it : Itinerary) (ops : List PlaceOp) : Itinerary :=
  ops.foldl applyOp it

/-- The order values of a places sub-list, in list position order. -/
def ordersOf (l : List PlaceEntry) : List Nat :=
  l.map (·.order)

/-- The order indices are exactly the contiguous sequence 1..N, in
position order (entry i carries order i+1), hence with no gaps or
duplicates. -/
def contiguous (l : List PlaceEntry) : Prop :=
  ordersOf l = List.range' 1 l.length

instance (l : List PlaceEntry) : Decidable (contiguous l) := by
  unfold contiguous; exact inferInstance

/-- Forget the order field, keeping all other entry data, to express
that a renumbering touches nothing but the order indices. -/
def eraseOrder (p : PlaceEntry) : PlaceEntry :=
  { p with order := 0 }

/-- Sum of the estimatedDuration values of resolved generation entries. -/
def sumResolvedDurations (l : List ResolvedPlace) : Nat :=
  (l.map (·.estimatedDuration)).sum

/-- Default entry used with List.getD when indexing resolved places. -/
def dummyResolved : ResolvedPlace :=
  placeholderFor { name := "", category := "", estimatedDuration := none,
                   notes := none } 0

/-- An itinerary with an empty places sub-list and the schema defaults
for the remaining fields. -/
def emptyItinerary : Itinerary :=
  { title := "Demo", description := "", places := [], totalDuration := 0,
    estimatedCost := 0, isPublic := false, isCompleted := false,
    completedAt := none, likes := [], shares := 0 }

/-- A concrete itinerary with one place (order 1) and two likes, the
like of user u sitting before the like of user b. -/
def demoItinerary : Itinerary :=
  { title := "Demo", description := "", places :=
      [{ placeId := "a", name := "Cafe A", category := "cafe", order := 1,
         estimatedDuration := 45, notes := "", isVisited := false,
         rating := none }],
    totalDuration := 45, estimatedCost := 0, isPublic := true,
    isCompleted := false, completedAt := none,
    likes := [{ user := "u", likedAt := 0 }, { user := "b", likedAt := 0 }],
    shares := 2 }

def demoPlaceData : PlaceData :=
  { placeId := "b", name := "Park B", category := "park",
    estimatedDuration := 30, notes := "" }

/-- Concrete places with identical checkin/tip/photo/rating inputs and
different remaining fields. -/
def demoStats : PlaceStats :=
  { totalCheckins := some 10, totalTips := some 5, totalPhotos := none }

def demoPlaceA : Place :=
  { foursquareId := "fsq1", name := "Cafe A", category := "cafe",
    rating := some 4, stats := demoStats, popularity := 0 }

def demoPlaceB : Place :=
  { foursquareId := "fsq2", name := "Cafe B", category := "coffee",
    rating := some 4, stats := demoStats, popularity := 99 }

def demoRawPlace : RawPlace :=
  { fsq_id := "fsq1", name := "Cafe A", category := "cafe" }

/-- A concrete skeleton whose reported total duration (999) differs from
the sum of its entries' durations (it has no entries). -/
def demoSkeleton : Skeleton :=
  { title := "Evening out", description := "", totalDuration := 999,
    estimatedCost := 40, tags := ["ai-generated"],
    places := [{ name := "cafe", category := "coffee",
                 estimatedDuration := some 45, notes := none }] }

def demoSearchResult : SearchResult :=
  { id := "fsq9", name := "Cool Cafe", category := "Coffee Shop" }

/-- A public itinerary with two likes and no shares. -/
def demoPopularA : Itinerary :=
  { title := "A", description := "", places := [], totalDuration := 0,
    estimatedCost := 0, isPublic := true, isCompleted := false,
    completedAt := none,
    likes := [{ user := "u1", likedAt := 0 }, { user := "u2", likedAt := 0 }],
    shares := 0 }

/-- A public itinerary with no likes and five shares. -/
def demoPopularB : Itinerary :=
  { title := "B", description := "", places := [], totalDuration := 0,
    estimatedCost := 0, isPublic := true, isCompleted := false,
    completedAt := none, likes := [], shares := 5 }

/-- A gateway whose every search succeeds with one fixed result. -/
def demoGateway : SearchRequest → Except Unit (List SearchResult) :=
  fun _ => .ok [demoSearchResult]

theorem foldl_duration_eq (l : List PlaceEntry) (n : Nat) :
    l.foldl (fun total place => total + place.estimatedDuration) n =
      n + sumDurations l := by
  induction l generalizing n with
  | nil => simp [sumDurations]
  | cons p ps ih =>
    simp only [List.foldl_cons, ih, sumDurations, List.map_cons, List.sum_cons]
    omega

theorem updateTotals_totalDuration (it : Itinerary) :
    (updateTotals it).totalDuration = sumDurations it.places := by
  simp [updateTotals, foldl_duration_eq]

theorem updateTotals_places (it : Itinerary) :
    (updateTotals it).places = it.places := rfl

/-- C3: after every addPlace, removePlace, or bulk replacement of the
places array via the update operation, totalDuration equals the sum of
the estimatedDuration values of all entries in the places sub-list. -/
theorem totalDuration_invariant (it : Itinerary) (placeData : PlaceData)
    (placeId : String) (title description : Option String)
    (newPlaces : List PlaceEntry) (isPublic : Option Bool) :
    (addPlace it placeData).totalDuration =
      sumDurations (addPlace it placeData).places ∧
    (removePlace it placeId).totalDuration =
      sumDurations (removePlace it placeId).places ∧
    (updateItinerary it title description (some newPlaces) isPublic).totalDuration
      = sumDurations
          (updateItinerary it title description (some newPlaces) isPublic).places := by
  refine ⟨?_, ?_, ?_⟩
  · rw [addPlace, updateTotals_totalDuration, updateTotals_places]
  · rw [removePlace, updateTotals_totalDuration, updateTotals_places]
  · unfold updateItinerary
    rcases isPublic with _ | b <;>
      simp [updateTotals_totalDuration, updateTotals_places]

/-- C8: the popularity recomputation is a pure function of checkin, tip
and photo counts and the rating — equal inputs give equal popularity —
and its value is 0.4*checkins + 0.3*tips + 0.2*photos + 0.1*rating with
absent inputs treated as 0. -/
theorem updatePopularity_pure_linear (p q : Place)
    (hc : p.stats.totalCheckins = q.stats.totalCheckins)
    (ht : p.stats.totalTips = q.stats.totalTips)
    (hp : p.stats.totalPhotos = q.stats.totalPhotos)
    (hr : p.rating = q.rating) :
    (updatePopularity p).popularity = (updatePopularity q).popularity ∧
    (updatePopularity p).popularity =
      0.4 * (p.stats.totalCheckins.getD 0 : ℚ)
        + 0.3 * (p.stats.totalTips.getD 0 : ℚ)
        + 0.2 * (p.stats.totalPhotos.getD 0 : ℚ)
        + 0.1 * p.rating.getD 0 := by
  constructor
  · simp [updatePopularity, hc, ht, hp, hr]
  · simp only [updatePopularity]
    ring

theorem updatePopularity_pure_linear_witness :
    (updatePopularity demoPlaceA).popularity =
      (updatePopularity demoPlaceB).popularity :=
  (updatePopularity_pure_linear demoPlaceA demoPlaceB rfl rfl rfl rfl).1

/-- C1 (amended): immediately after markPlaceVisited the completion flag
equals (previous flag OR every entry of the updated places list is
visited — vacuously true for an empty list), so it becomes true exactly
when all entries are visited and is never reverted; removePlace leaves
the completion flag untouched. -/
theorem markPlaceVisited_completion (it : Itinerary) (placeId : String)
    (rating : Option Nat) (now : Nat) (otherId : String) :
    (markPlaceVisited it placeId rating now).places =
      markFirst it.places placeId rating ∧
    (markPlaceVisited it placeId rating now).isCompleted =
      (it.isCompleted ||
        (markFirst it.places placeId rating).all (·.isVisited)) ∧
    (removePlace it otherId).isCompleted = it.isCompleted := by
  refine ⟨?_, ?_, rfl⟩ <;>
  · unfold markPlaceVisited
    cases h : (markFirst it.places placeId rating).all (·.isVisited) <;>
      simp [h]

/-- C1 counterexample: on an itinerary with an empty places sub-list,
markPlaceVisited sets the completion flag (Array.every is vacuously true
on the empty list), contradicting the claimed equivalence with a
non-empty all-visited list. -/
theorem markPlaceVisited_empty_counterexample :
    ¬ (((markPlaceVisited emptyItinerary "p1" none 0).isCompleted = true) ↔
       ((markPlaceVisited emptyItinerary "p1" none 0).places ≠ [] ∧
        ∀ p ∈ (markPlaceVisited emptyItinerary "p1" none 0).places,
          p.isVisited = true)) := by
  decide

/-- C5: an unparseable skeleton yields a failure result (success=false
with an error message) from the parse step, and the generation flow then
answers with an error status and never creates an itinerary record. -/
theorem unparseable_skeleton_never_persists (prompt searchLocation : Option String)
    (gateway : SearchRequest → Except Unit (List SearchResult)) :
    (parseItineraryResponse none).success = false ∧
    (parseItineraryResponse none).error = some "Failed to generate itinerary" ∧
    (generateItinerary prompt searchLocation (parseItineraryResponse none)
        gateway).created = none ∧
    (generateItinerary prompt searchLocation (parseItineraryResponse none)
        gateway).success = false ∧
    400 ≤ (generateItinerary prompt searchLocation (parseItineraryResponse none)
        gateway).status := by
  refine ⟨rfl, rfl, ?_, ?_, ?_⟩ <;>
  · rcases prompt with _ | p
    · simp [generateItinerary]
    · rcases searchLocation with _ | loc
      · by_cases hp : p = "" <;> simp [generateItinerary, hp]
      · by_cases hp : p = "" <;> by_cases hl : loc = "" <;>
          simp [generateItinerary, parseItineraryResponse, hp, hl, jsOrStrOpt]

/-- C10: a successfully generated itinerary is persisted with the
skeleton's totalDuration and estimatedCost verbatim, not recomputed from
the resolved entries — and there is a concrete generation whose
persisted totalDuration differs from the sum of its entries' durations. -/
theorem generated_totals_verbatim (p loc : String) (skel : Skeleton)
    (gateway : SearchRequest → Except Unit (List SearchResult))
    (hp : p ≠ "") (hl : loc ≠ "") :
    (generateItinerary (some p) (some loc)
        (parseItineraryResponse (some skel)) gateway).created =
      some (buildGenItinerary skel gateway loc p) ∧
    (buildGenItinerary skel gateway loc p).totalDuration = skel.totalDuration ∧
    (buildGenItinerary skel gateway loc p).estimatedCost = skel.estimatedCost ∧
    ∃ skel0 gw0 loc0 p0,
      (buildGenItinerary skel0 gw0 loc0 p0).totalDuration ≠
        sumResolvedDurations (buildGenItinerary skel0 gw0 loc0 p0).places := by
  refine ⟨?_, rfl, rfl, ?_⟩
  · simp [generateItinerary, parseItineraryResponse, hp, hl]
  · refine ⟨demoSkeleton, demoGateway, "1,2", "x", ?_⟩
    decide

theorem generated_totals_verbatim_witness :
    (buildGenItinerary demoSkeleton demoGateway "1,2" "coffee crawl").totalDuration
      = demoSkeleton.totalDuration :=
  (generated_totals_verbatim "coffee crawl" "1,2" demoSkeleton demoGateway
    (by decide) (by decide)).2.1

/-- C6: a search whose provider call fails returns the error outcome
(never an empty success) and leaves the place cache store exactly as it
was; the cache can only change on a successful provider response. -/
theorem searchPlaces_failure_leaves_cache (cache : List (String × RawPlace))
    (e : Unit) (outcome : Except Unit (Option (List RawPlace))) :
    searchPlaces (.error e) cache = (.error "Failed to search places", cache) ∧
    ((searchPlaces outcome cache).2 ≠ cache →
      ∃ results, outcome = .ok results) := by
  constructor
  · rfl
  · intro h
    cases outcome with
    | error u => exact absurd rfl h
    | ok results => exact ⟨results, rfl⟩

theorem searchPlaces_failure_leaves_cache_witness :
    ∃ results,
      (Except.ok (some [demoRawPlace]) : Except Unit (Option (List RawPlace)))
        = .ok results :=
  (searchPlaces_failure_leaves_cache [] () (.ok (some [demoRawPlace]))).2
    (by decide)

/-- C9 (amended): after any toggleLike the user appears at most once in
the likes list; toggling twice restores the set of liking users; when
the user was absent the likes list is restored exactly; when the user
was present, the first toggle removes all of that user's like entries
and the second appends a single like for the user at the end of the
list. -/
theorem toggleLike_effects (it : Itinerary) (u : String) (t1 t2 : Nat) :
    (((toggleLike it u t1).likes.map Like.user).count u ≤ 1) ∧
    (∀ v, v ∈ ((toggleLike (toggleLike it u t1) u t2).likes.map Like.user) ↔
       v ∈ (it.likes.map Like.user)) ∧
    ((∀ l ∈ it.likes, l.user ≠ u) →
       (toggleLike (toggleLike it u t1) u t2).likes = it.likes) ∧
    ((∃ l ∈ it.likes, l.user = u) →
       (toggleLike it u t1).likes =
         it.likes.filter (fun l => l.user ≠ u) ∧
       (toggleLike (toggleLike it u t1) u t2).likes =
         it.likes.filter (fun l => l.user ≠ u) ++
           [({ user := u, likedAt := t2 } : Like)]) := by
  cases h : it.likes.any (fun l => l.user = u) with
  | false =>
    have habs : ∀ l ∈ it.likes, l.user ≠ u := by
      intro l hl heq
      have ht : it.likes.any (fun l => l.user = u) = true := by
        simp only [List.any_eq_true]
        exact ⟨l, hl, by simp [heq]⟩
      simp [h] at ht
    have e1 : toggleLike it u t1 =
        { it with likes := it.likes ++ [({ user := u, likedAt := t1 } : Like)] } := by
      simp [toggleLike, h]
    have h2 : (it.likes ++ [({ user := u, likedAt := t1 } : Like)]).any
        (fun l => l.user = u) = true := by
      simp [List.any_append]
    have hself : it.likes.filter (fun l => l.user ≠ u) = it.likes := by
      rw [List.filter_eq_self]
      intro a ha
      simpa using habs a ha
    have e3 : (it.likes ++ [({ user := u, likedAt := t1 } : Like)]).filter
        (fun l => l.user ≠ u) = it.likes := by
      rw [List.filter_append, hself]
      simp
    have efin : (toggleLike (toggleLike it u t1) u t2).likes = it.likes := by
      rw [e1]
      simp only [toggleLike, h2, if_true]
      simpa using e3
    refine ⟨?_, ?_, fun _ => efin, ?_⟩
    · have hz : (it.likes.map Like.user).count u = 0 := by
        rw [List.count_eq_zero]
        simp only [List.mem_map, not_exists]
        rintro l ⟨hl, hlu⟩
        exact habs l hl hlu
      rw [e1]
      simp only [List.map_append, List.count_append, hz]
      simp
    · intro v
      rw [efin]
    · rintro ⟨l, hl, hlu⟩
      exact absurd hlu (habs l hl)
  | true =>
    have hex : ∃ l ∈ it.likes, l.user = u := by
      simpa [List.any_eq_true] using h
    have e1 : toggleLike it u t1 =
        { it with likes := it.likes.filter (fun l => l.user ≠ u) } := by
      simp [toggleLike, h]
    have hall : ∀ l ∈ it.likes.filter (fun l => l.user ≠ u), l.user ≠ u := by
      intro l hl
      have := (List.mem_filter.mp hl).2
      simpa using this
    have h2 : (it.likes.filter (fun l => l.user ≠ u)).any
        (fun l => l.user = u) = false := by
      cases hb : (it.likes.filter (fun l => l.user ≠ u)).any
          (fun l => l.user = u) with
      | false => rfl
      | true =>
        exfalso
        obtain ⟨l, hl, hlu⟩ := List.any_eq_true.mp hb
        exact hall l hl (by simpa using hlu)
    have e2 : (toggleLike (toggleLike it u t1) u t2).likes =
        it.likes.filter (fun l => l.user ≠ u) ++
          [({ user := u, likedAt := t2 } : Like)] := by
      rw [e1]
      simp [toggleLike, h2]
    refine ⟨?_, ?_, ?_, ?_⟩
    · have hz : (((toggleLike it u t1).likes).map Like.user).count u = 0 := by
        rw [e1, List.count_eq_zero]
        simp only [List.mem_map, List.mem_filter, not_exists]
        rintro l ⟨⟨hl, hne⟩, hlu⟩
        exact (by simpa using hne : l.user ≠ u) hlu
      omega
    · intro v
      rw [e2]
      simp only [List.map_append, List.mem_append, List.mem_map,
        List.mem_filter, List.map_cons, List.map_nil, List.mem_singleton]
      constructor
      · rintro (⟨l, ⟨hl, _⟩, rfl⟩ | rfl)
        · exact ⟨l, hl, rfl⟩
        · obtain ⟨l, hl, hlu⟩ := hex
          exact ⟨l, hl, hlu⟩
      · rintro ⟨l, hl, rfl⟩
        by_cases hv : l.user = u
        · exact Or.inr hv
        · exact Or.inl ⟨l, ⟨hl, by simpa using hv⟩, rfl⟩
    · intro habs2
      exfalso
      obtain ⟨l, hl, hlu⟩ := hex
      exact habs2 l hl hlu
    · intro _
      refine ⟨?_, e2⟩
      rw [e1]

theorem toggleLike_effects_witness :
    (toggleLike (toggleLike emptyItinerary "u" 3) "u" 7).likes =
      emptyItinerary.likes ∧
    (toggleLike (toggleLike demoItinerary "u" 3) "u" 7).likes =
      demoItinerary.likes.filter (fun l => l.user ≠ "u") ++
        [({ user := "u", likedAt := 7 } : Like)] :=
  ⟨(toggleLike_effects emptyItinerary "u" 3 7).2.2.1 (by decide),
   ((toggleLike_effects demoItinerary "u" 3 7).2.2.2
      ⟨{ user := "u", likedAt := 0 }, by decide, rfl⟩).2⟩

/-- C9 counterexample: for an itinerary whose likes list holds user u
before user b, toggling u twice moves u's like to the end of the list,
so the likes sub-list is not returned to its original state. -/
theorem toggleLike_twice_counterexample :
    (toggleLike (toggleLike demoItinerary "u" 0) "u" 0).likes ≠
      demoItinerary.likes := by
  decide

/-- C7: evaluation of findPopular at the failing input.  For two public
itineraries where the first has strictly more likes but fewer shares,
findPopular returns them in shares-descending order — the Mongo sort
key likes.length resolves to a nonexistent subfield and is missing on
every document, so the query never orders by like-count, contradicting
the claimed like-count-descending ordering. -/
theorem findPopular_sorts_by_shares_only :
    findPopular [demoPopularA, demoPopularB] 10 =
      [demoPopularB, demoPopularA] ∧
    demoPopularB.likes.length < demoPopularA.likes.length ∧
    demoPopularA.isPublic = true ∧ demoPopularB.isPublic = true := by
  decide

theorem ordersOf_renumberFrom (l : List PlaceEntry) (k : Nat) :
    ordersOf (renumberFrom k l) = List.range' (k + 1) l.length := by
  induction l generalizing k with
  | nil => rfl
  | cons p ps ih =>
    simp [renumberFrom, ordersOf, List.range']
    simpa [ordersOf] using ih (k + 1)

theorem renumberFrom_length (l : List PlaceEntry) (k : Nat) :
    (renumberFrom k l).length = l.length := by
  induction l generalizing k with
  | nil => rfl
  | cons p ps ih => simp [renumberFrom, ih]

theorem map_eraseOrder_renumberFrom (l : List PlaceEntry) (k : Nat) :
    (renumberFrom k l).map eraseOrder = l.map eraseOrder := by
  induction l generalizing k with
  | nil => rfl
  | cons p ps ih => simp [renumberFrom, eraseOrder, ih]

theorem foldl_max_range' (n a : Nat) :
    List.foldl Nat.max a (List.range' (a + 1) n) = a + n := by
  induction n generalizing a with
  | zero => simp
  | succ m ih =>
    simp only [List.range', List.foldl_cons]
    rw [show a.max (a + 1) = a + 1 from Nat.max_eq_right (Nat.le_add_right a 1)]
    have h := ih (a + 1)
    omega

theorem maxOrder_of_contiguous (l : List PlaceEntry) (h : contiguous l) :
    maxOrder l = l.length := by
  have h' : l.map (·.order) = List.range' 1 l.length := h
  unfold maxOrder
  by_cases hl : l.length > 0
  · rw [if_pos hl, h']
    simpa using foldl_max_range' l.length 0
  · rw [if_neg hl]
    omega

theorem range'_append_singleton (s n : Nat) :
    List.range' s n ++ [s + n] = List.range' s (n + 1) := by
  induction n generalizing s with
  | zero => simp [List.range']
  | succ m ih =>
    simp only [List.range', List.cons_append, List.cons.injEq, true_and]
    rw [show s + (m + 1) = (s + 1) + m by omega]
    exact ih (s + 1)

theorem addPlace_places (it : Itinerary) (placeData : PlaceData) :
    (addPlace it placeData).places = it.places ++
      [{ placeId := placeData.placeId, name := placeData.name,
         category := placeData.category, order := maxOrder it.places + 1,
         estimatedDuration := placeData.estimatedDuration,
         notes := placeData.notes, isVisited := false, rating := none }] := rfl

theorem contiguous_addPlace (it : Itinerary) (placeData : PlaceData)
    (h : contiguous it.places) : contiguous (addPlace it placeData).places := by
  have hmax : maxOrder it.places = it.places.length :=
    maxOrder_of_contiguous _ h
  have horders : it.places.map (·.order) = List.range' 1 it.places.length := h
  show ordersOf ((addPlace it placeData).places) = _
  rw [addPlace_places]
  unfold ordersOf
  simp only [List.map_append, List.map_cons, List.map_nil, List.length_append,
    List.length_cons, List.length_nil]
  rw [hmax, horders]
  have := range'_append_singleton 1 it.places.length
  rw [show (1 : Nat) + it.places.length = it.places.length + 1 by omega] at this
  rw [this]

theorem contiguous_removePlace (it : Itinerary) (placeId : String) :
    contiguous (removePlace it placeId).places := by
  show ordersOf _ = _
  have e : (removePlace it placeId).places =
      renumberFrom 0 (it.places.filter (fun p => p.placeId ≠ placeId)) := rfl
  rw [e, ordersOf_renumberFrom, renumberFrom_length]

theorem contiguous_applyOps (it : Itinerary) (h : contiguous it.places)
    (ops : List PlaceOp) : contiguous (applyOps it ops).places := by
  induction ops generalizing it with
  | nil => exact h
  | cons op rest ih =>
    have h1 : contiguous (applyOp it op).places := by
      cases op with
      | add placeData => exact contiguous_addPlace it placeData h
      | remove placeId => exact contiguous_removePlace it placeId
    simpa [applyOps, List.foldl_cons] using ih (applyOp it op) h1

/-- C2: starting from contiguous order indices 1..N, every sequence of
addPlace/removePlace operations keeps the order indices exactly 1..N'
in position order (no gaps or duplicates); removePlace keeps the
remaining entries' data in their relative order (only the order field
is renumbered); and addPlace appends an entry whose order is the
current maximum order plus one (1 for an empty list). -/
theorem order_indices_invariant :
    (∀ it : Itinerary, contiguous it.places →
       ∀ ops : List PlaceOp, contiguous (applyOps it ops).places) ∧
    (∀ (it : Itinerary) (placeId : String),
       ((removePlace it placeId).places).map eraseOrder =
         (it.places.filter (fun p => p.placeId ≠ placeId)).map eraseOrder) ∧
    (∀ (it : Itinerary) (placeData : PlaceData),
       ∃ e, (addPlace it placeData).places = it.places ++ [e] ∧
         e.order = maxOrder it.places + 1 ∧
         (it.places = [] → e.order = 1)) := by
  refine ⟨fun it h ops => contiguous_applyOps it h ops, ?_, ?_⟩
  · intro it placeId
    have e : (removePlace it placeId).places =
        renumberFrom 0 (it.places.filter (fun p => p.placeId ≠ placeId)) := rfl
    rw [e, map_eraseOrder_renumberFrom]
  · intro it placeData
    refine ⟨_, addPlace_places it placeData, rfl, ?_⟩
    intro he
    simp [maxOrder, he]

theorem order_indices_invariant_witness :
    contiguous (applyOps demoItinerary
      [PlaceOp.add demoPlaceData, PlaceOp.remove "a"]).places :=
  order_indices_invariant.1 demoItinerary (by decide)
    [PlaceOp.add demoPlaceData, PlaceOp.remove "a"]

theorem find?_eq_some_split {α : Type} (p : α → Bool) (l : List α) (a : α)
    (h : l.find? p = some a) :
    p a = true ∧ ∃ l1 l2, l = l1 ++ a :: l2 ∧ ∀ x ∈ l1, p x = false := by
  induction l with
  | nil => simp [List.find?] at h
  | cons b bs ih =>
    cases hb : p b with
    | true =>
      rw [List.find?_cons_of_pos _ hb] at h
      obtain rfl : b = a := by injection h
      exact ⟨hb, [], bs, rfl, by simp⟩
    | false =>
      rw [List.find?_cons_of_neg _ (by simp [hb])] at h
      obtain ⟨hpa, l1, l2, hbs, hall⟩ := ih h
      refine ⟨hpa, b :: l1, l2, by simp [hbs], ?_⟩
      intro x hx
      rcases List.mem_cons.mp hx with rfl | hx1
      · exact hb
      · exact hall x hx1

theorem resolvePlacesFrom_length
    (gateway : SearchRequest → Except Unit (List SearchResult))
    (searchLocation : String) (stubs : List StubPlace) (k : Nat) :
    (resolvePlacesFrom gateway searchLocation k stubs).length = stubs.length := by
  induction stubs generalizing k with
  | nil => rfl
  | cons s rest ih => simp [resolvePlacesFrom, ih]

theorem resolvePlacesFrom_getD
    (gateway : SearchRequest → Except Unit (List SearchResult))
    (searchLocation : String) (stubs : List StubPlace) (k i : Nat)
    (h : i < stubs.length) :
    (resolvePlacesFrom gateway searchLocation k stubs).getD i dummyResolved =
      resolveStub (stubs.get ⟨i, h⟩) (k + i)
        (gateway (mkSearchRequest (stubs.get ⟨i, h⟩) searchLocation)) := by
  induction stubs generalizing k i with
  | nil => simp at h
  | cons s rest ih =>
    cases i with
    | zero => simp [resolvePlacesFrom]
    | succ j =>
      have hj : j < rest.length := by simpa using h
      simp only [resolvePlacesFrom, List.getD_cons_succ]
      rw [show k + (j + 1) = (k + 1) + j by omega]
      simpa using ih (k + 1) j hj

/-- C4: the generation flow resolves each skeleton stub in original
order with a search for the stub's name at the effective location
(radius 5000, limit 5), takes as best match the first result whose
lowered name contains the stub's lowered name or whose lowered category
contains the stub's lowered category, falls back to the synthesized
placeholder entry when the search fails or nothing matches, and always
produces exactly one entry per stub. -/
theorem generation_resolves_each_stub
    (gateway : SearchRequest → Except Unit (List SearchResult))
    (searchLocation : String) (stubs : List StubPlace) :
    (resolvePlaces gateway searchLocation stubs).length = stubs.length ∧
    (∀ i (h : i < stubs.length),
       (resolvePlaces gateway searchLocation stubs).getD i dummyResolved =
         resolveStub (stubs.get ⟨i, h⟩) i
           (gateway (mkSearchRequest (stubs.get ⟨i, h⟩) searchLocation))) ∧
    (∀ (stub : StubPlace) (index : Nat) (e : Unit),
       resolveStub stub index (.error e) = placeholderFor stub index) ∧
    (∀ (stub : StubPlace) (index : Nat) (results : List SearchResult),
       results.find? (matchesStub stub) = none →
         resolveStub stub index (.ok results) = placeholderFor stub index) ∧
    (∀ (stub : StubPlace) (index : Nat) (results : List SearchResult)
       (r : SearchResult),
       results.find? (matchesStub stub) = some r →
         matchesStub stub r = true ∧
         (∃ pre suf, results = pre ++ r :: suf ∧
            ∀ x ∈ pre, matchesStub stub x = false) ∧
         (r.id ≠ "" → (resolveStub stub index (.ok results)).placeId = r.id)) ∧
    (∀ (stub : StubPlace) (loc : String),
       (mkSearchRequest stub loc).query = stub.name ∧
       (mkSearchRequest stub loc).radius = 5000 ∧
       (mkSearchRequest stub loc).limit = 5) ∧
    (∀ (skel : Skeleton) (prompt : String),
       (buildGenItinerary skel gateway searchLocation prompt).places.length =
         skel.places.length) := by
  refine ⟨?_, ?_, ?_, ?_, ?_, ?_, ?_⟩
  · exact resolvePlacesFrom_length gateway searchLocation stubs 0
  · intro i h
    simpa using resolvePlacesFrom_getD gateway searchLocation stubs 0 i h
  · intro stub index e
    rfl
  · intro stub index results h
    simp [resolveStub, h]
  · intro stub index results r h
    obtain ⟨hp, l1, l2, hsplit, hall⟩ := find?_eq_some_split _ _ _ h
    refine ⟨hp, ⟨l1, l2, hsplit, hall⟩, ?_⟩
    intro hid
    simp [resolveStub, h, jsOrString, hid]
  · intro stub loc
    exact ⟨rfl, rfl, rfl⟩
  · intro skel prompt
    exact resolvePlacesFrom_length gateway searchLocation skel.places 0

theorem generation_resolves_each_stub_witness :
    (resolvePlaces demoGateway "1,2" demoSkeleton.places).getD 0 dummyResolved =
      resolveStub (demoSkeleton.places.get ⟨0, by decide⟩) 0
        (demoGateway (mkSearchRequest
          (demoSkeleton.places.get ⟨0, by decide⟩) "1,2")) ∧
    matchesStub (demoSkeleton.places.get ⟨0, by decide⟩) demoSearchResult
      = true :=
  ⟨(generation_resolves_each_stub demoGateway "1,2" demoSkeleton.places).2.1 0
      (by decide),
   ((generation_resolves_each_stub demoGateway "1,2" demoSkeleton.places).2.2.2.2.1
      (demoSkeleton.places.get ⟨0, by decide⟩) 0 [demoSearchResult]
      demoSearchResult (by decide)).1⟩

end LocaMate
